import Mathlib

/-!
Verification of the `react-native-paper` component sources
(`src/components/BottomNavigation.js` and the `getAccordionColors`
helper exercised by `src/components/__tests__/ListAccordion.test.js`).

The JavaScript functions are shallowly embedded as Lean definitions:
pure arithmetic over `Int`/`Nat`/`ℚ`, records for the small value
objects (themes, routes, derived color records), and `Except` for the
parts of the render pipeline that could raise a JavaScript error.
-/

namespace Paper

/-- Constant `MIN_SHIFT_AMOUNT = 10` from `BottomNavigation.js`. -/
def MIN_SHIFT_AMOUNT : Int := 10

/-- Shallow embedding of `_calculateShift(activeIndex, currentIndex, numberOfItems)`
from `BottomNavigation.js`.  Mirrors the source's control flow: the two strict
comparisons return early, the `activeIndex === currentIndex` block checks
`currentIndex === 0` before `currentIndex === numberOfItems - 1`, and every
remaining path falls through to `return 0`. -/
def calculateShift (activeIndex currentIndex numberOfItems : Int) : Int :=
  if activeIndex < currentIndex then
    2 * MIN_SHIFT_AMOUNT
  else if activeIndex > currentIndex then
    -2 * MIN_SHIFT_AMOUNT
  else if activeIndex = currentIndex then
    if currentIndex = 0 then
      MIN_SHIFT_AMOUNT
    else if currentIndex = numberOfItems - 1 then
      -MIN_SHIFT_AMOUNT
    else
      0
  else
    0

/-- Shallow embedding of the `shifting` resolution in `render`
(`BottomNavigation.js` lines 419-422): a supplied boolean prop wins,
otherwise shifting is on exactly when there are more than 3 routes.
The optional prop `shifting?: boolean` is modelled as `Option Bool`. -/
def resolveShifting (shiftingProp : Option Bool) (numRoutes : Nat) : Bool :=
  match shiftingProp with
  | some b => b
  | none => decide (numRoutes > 3)

/-- A color value as manipulated by the `color` utility in the accordion
helper: an underlying rgb value (kept abstract as its string form) together
with an alpha channel.  `color(c).alpha(a).rgb().string()` keeps the rgb part
and replaces the alpha channel. -/
structure CColor where
  rgb : String
  alpha : ℚ
deriving DecidableEq

/-- Embedding of `color(c).alpha(a).rgb().string()`: same rgb, alpha replaced by `a`. -/
def setAlpha (c : CColor) (a : ℚ) : CColor :=
  { rgb := c.rgb, alpha := a }

/-- The theme color fields read by `getAccordionColors`: a version-3 palette
uses `onSurface` / `onSurfaceVariant` / `primary`, a version-2 palette uses
`text` / `primary`. -/
structure ThemeColors where
  onSurface : CColor
  onSurfaceVariant : CColor
  text : CColor
  primary : CColor
deriving DecidableEq

/-- A versioned theme: `isV3` selects between the newer structured palette and
the older flat palette. -/
structure Theme where
  isV3 : Bool
  colors : ThemeColors
deriving DecidableEq

/-- The record of display colors returned by `getAccordionColors`. -/
structure AccordionColors where
  titleColor : CColor
  descriptionColor : CColor
  titleTextColor : CColor
  rippleColor : CColor
deriving DecidableEq

/-- Modelled from the spec: the implementation of `getAccordionColors`
(`src/components/List/utils`) is not among the provided sources; only its
tests are.  Per the spec it is "a pure function mapping `(theme,
expanded-flag)` to a small record of display colors (title, description,
title-text, ripple), selecting between two theme-version color formulas",
with the formulas fixed by `ListAccordion.test.js`: version 3 uses
`colors.onSurface` / `colors.onSurfaceVariant`, version 2 uses `colors.text`
at alphas 0.87 / 0.54; the title-text color is `colors.primary` when
expanded and the title color otherwise, and the ripple color is the
title-text color at alpha 0.12. -/
def getAccordionColors (theme : Theme) (isExpanded : Bool) : AccordionColors :=
  let titleColor :=
    if theme.isV3 then theme.colors.onSurface
    else setAlpha theme.colors.text (87 / 100)
  let descriptionColor :=
    if theme.isV3 then theme.colors.onSurfaceVariant
    else setAlpha theme.colors.text (54 / 100)
  let titleTextColor := if isExpanded then theme.colors.primary else titleColor
  let rippleColor := setAlpha titleTextColor (12 / 100)
  { titleColor := titleColor
    descriptionColor := descriptionColor
    titleTextColor := titleTextColor
    rippleColor := rippleColor }

/-- Linear interpolation of an `Animated` value over
`inputRange: [0, 1]`, `outputRange: [lo, hi]`. -/
def interpolate01 (f lo hi : ℚ) : ℚ :=
  lo + (hi - lo) * f

/-- The label-related part of one tab item as emitted by `render`
(`BottomNavigation.js` lines 573-612 and 681-732), as a function of the
`shifting` flag and the tab's animated active value `focused`
(1 active, 0 inactive): the active-state label wrapper is always emitted
with opacity `focused`; the inactive-state label wrapper is emitted only
when `shifting` is false, with opacity interpolating `[0,1] ↦ [1,0]`;
the label container's scale interpolates `[0,1] ↦ [shifting ? 0.5 :
INACTIVE_LABEL_SIZE / ACTIVE_LABEL_SIZE, 1]`. -/
structure TabLabelRender where
  renderActiveLabel : Bool
  activeLabelOpacity : ℚ
  renderInactiveLabel : Bool
  inactiveLabelOpacity : ℚ
  labelScale : ℚ
deriving DecidableEq

/-- Constant `ACTIVE_LABEL_SIZE = 14` from `BottomNavigation.js`. -/
def ACTIVE_LABEL_SIZE : ℚ := 14

/-- Constant `INACTIVE_LABEL_SIZE = 12` from `BottomNavigation.js`. -/
def INACTIVE_LABEL_SIZE : ℚ := 12

/-- Shallow embedding of the per-tab label rendering in `render`. -/
def renderTabLabel (shifting : Bool) (focused : ℚ) : TabLabelRender :=
  { renderActiveLabel := true
    activeLabelOpacity := focused
    renderInactiveLabel := !shifting
    inactiveLabelOpacity := interpolate01 focused 1 0
    labelScale :=
      interpolate01 focused
        (if shifting then 1 / 2 else INACTIVE_LABEL_SIZE / ACTIVE_LABEL_SIZE) 1 }

/-- The settled value of the `tabs[i]` animated value: initialised to
`i === index ? 1 : 0` in the constructor and driven back to the same value on
every index change (`BottomNavigation.js` lines 267 and 307-313). -/
def tabActiveValue (activeIndex i : Nat) : ℚ :=
  if i = activeIndex then 1 else 0

/-- A route/tab descriptor: `key` is required, `title` / `icon` / `color` are
optional display configuration. -/
structure Route where
  key : String
  title : Option String
  icon : Option String
  color : Option String
deriving DecidableEq

/-- The observable callback invocations of one `_handleTabPress(index)` call:
which `onIndexChange` arguments were emitted and which
`{ route, focused }` pairs were passed to `onTabPress`.  `routes.get? i`
models the JavaScript array access `navigationState.routes[index]`, which
yields `undefined` out of bounds. -/
structure TabPressEffects where
  indexChangeCalls : List Nat
  tabPressCalls : List (Option Route × Bool)
deriving DecidableEq

/-- Shallow embedding of `_handleTabPress` (`BottomNavigation.js` lines
370-393), dropping only the touch-ripple animation (pure animation state):
`onIndexChange(index)` fires when `index !== navigationState.index`, and when
an `onTabPress` prop is present it receives `navigationState.routes[index]`
and `focused: navigationState.index === index`. -/
def handleTabPress (navIndex : Nat) (routes : List Route)
    (hasOnTabPress : Bool) (i : Nat) : TabPressEffects :=
  { indexChangeCalls := if i ≠ navIndex then [i] else []
    tabPressCalls :=
      if hasOnTabPress then [(routes.get? i, decide (navIndex = i))] else [] }

/-- JavaScript `Array.prototype.findIndex`: index of the first element
satisfying the predicate, `-1` when none does. -/
def jsFindIndex (p : Route → Bool) : List Route → Int
  | [] => -1
  | r :: rs =>
    if p r then 0
    else
      let i := jsFindIndex p rs
      if i < 0 then -1 else i + 1

/-- Shallow embedding of `_jumpTo(key)` (`BottomNavigation.js` lines
395-401): the argument passed to `onIndexChange`, namely
`routes.findIndex(route => route.key === key)`.  `onIndexChange` is called
unconditionally with this value, `-1` included. -/
def jumpTo (routes : List Route) (key : String) : Int :=
  jsFindIndex (fun route => route.key == key) routes

/-- A JavaScript value as it flows through the color derivation in `render`:
`undefined` (a missing theme/route/style field), a boolean, or a string. -/
inductive JSVal where
  | undef
  | jsBool (b : Bool)
  | str (s : String)
deriving DecidableEq

/-- JavaScript truthiness for the values above (`undefined` and the empty
string are falsy). -/
def jsTruthy : JSVal → Bool
  | .undef => false
  | .jsBool b => b
  | .str s => !(s == "")

/-- A parsed color as held by the external `color` package: rgb channels in
0..255 plus an alpha channel. -/
structure ColorObj where
  r : Nat
  g : Nat
  b : Nat
  a : ℚ
deriving DecidableEq

/-- Value of a hex digit character, `none` for a non-hex character. -/
def hexDigitVal (c : Char) : Option Nat :=
  if '0' ≤ c ∧ c ≤ '9' then some (c.toNat - 48)
  else if 'a' ≤ c ∧ c ≤ 'f' then some (c.toNat - 97 + 10)
  else if 'A' ≤ c ∧ c ≤ 'F' then some (c.toNat - 65 + 10)
  else none

/-- Hex color string parser (`#rrggbb` and `#rgb` forms), the fragment of the
external `color` package's string parsing exercised here: the only strings
the bar derivation feeds it are hex constants (the `black`/`white` palette
entries) and theme/route color fields. -/
def parseHexColor (s : String) : Option ColorObj :=
  match s.toList with
  | ['#', c1, c2, c3, c4, c5, c6] => do
    let h1 ← hexDigitVal c1
    let h2 ← hexDigitVal c2
    let h3 ← hexDigitVal c3
    let h4 ← hexDigitVal c4
    let h5 ← hexDigitVal c5
    let h6 ← hexDigitVal c6
    some { r := 16 * h1 + h2, g := 16 * h3 + h4, b := 16 * h5 + h6, a := 1 }
  | ['#', c1, c2, c3] => do
    let h1 ← hexDigitVal c1
    let h2 ← hexDigitVal c2
    let h3 ← hexDigitVal c3
    some { r := 17 * h1, g := 17 * h2, b := 17 * h3, a := 1 }
  | _ => none

/-- The external `color` package's constructor, over the values reaching it
here: `color(undefined)` (and `color(null)`) yields opaque black, a parseable
color string yields its parse, an unparseable string or a boolean throws. -/
def jsColor : JSVal → Except String ColorObj
  | .undef => .ok { r := 0, g := 0, b := 0, a := 1 }
  | .str s =>
    match parseHexColor s with
    | some c => .ok c
    | none => .error "Unable to parse color from string"
  | .jsBool _ => .error "Unknown model"

/-- The external `color` package's `.light()` test (luminosity above 0.5),
modelled with the WCAG channel weights on linear channels, the inequality
cleared of denominators; the gamma curve is elided, as no claim depends on
the exact lightness threshold, only on the call being total. -/
def colorLight (c : ColorObj) : Bool :=
  decide (2 * (2126 * c.r + 7152 * c.g + 722 * c.b) > 2550000)

/-- Method `.alpha(a)` on a parsed color: replaces the alpha channel. -/
def colorWithAlpha (c : ColorObj) (a : ℚ) : ColorObj :=
  { r := c.r, g := c.g, b := c.b, a := a }

/-- Method chain `.rgb().string()` on a parsed color. -/
def rgbString (c : ColorObj) : String :=
  if c.a = 1 then
    "rgb(" ++ toString c.r ++ ", " ++ toString c.g ++ ", " ++ toString c.b ++ ")"
  else
    "rgba(" ++ toString c.r ++ ", " ++ toString c.g ++ ", " ++ toString c.b ++
      ", " ++ toString c.a ++ ")"

/-- Modelled from the spec: the `black` constant of `src/styles/colors`
(imported by `BottomNavigation.js` but not among the provided sources); the
standard opaque black hex value. -/
def black : String := "#000000"

/-- Modelled from the spec: the `white` constant of `src/styles/colors`
(imported by `BottomNavigation.js` but not among the provided sources); the
standard opaque white hex value. -/
def white : String := "#FFFFFF"

/-- The destructuring default of `render` lines 424-429:
`approxBackgroundColor` is the flattened `barStyle`'s `backgroundColor` when
that is not `undefined`, else `colors.primary` when shifting, else black or
white by `theme.dark`. -/
def approxBackground (shifting : Bool) (dark primary barStyleBackgroundColor : JSVal) :
    JSVal :=
  if barStyleBackgroundColor == JSVal.undef then
    if shifting then primary
    else if jsTruthy dark then JSVal.str black else JSVal.str white
  else barStyleBackgroundColor

/-- The color values derived by `render` (`BottomNavigation.js` lines
419-461) before any element is emitted. -/
structure DerivedBarColors where
  approxBackgroundColor : JSVal
  backgroundColorRange : List JSVal
  isDark : Bool
  textColor : String
  activeColor : JSVal
  inactiveColor : String
  touchColor : String
deriving DecidableEq

/-- Embedding of `const textColor = isDark ? white : black` with
`isDark = !color(approxBackgroundColor).light()` (`render` lines 440-442). -/
def barTextColor (c : ColorObj) : String :=
  if !(colorLight c) then white else black

/-- The record built once both `color(...)` calls of the bar derivation have
succeeded: `c` is the parsed approximate background, `tc` the parsed text
color.  `backgroundColorRange` is the `outputRange` of the background
interpolation when shifting (`getColor({ route }) || approxBackgroundColor`
per route) and the single background color otherwise. -/
def mkBarColors (shifting : Bool) (primary : JSVal) (routeColors : List JSVal)
    (approx : JSVal) (c : ColorObj) (tc : ColorObj) : DerivedBarColors :=
  { approxBackgroundColor := approx
    backgroundColorRange :=
      if shifting then
        routeColors.map (fun rc => if jsTruthy rc then rc else approx)
      else [approx]
    isDark := !(colorLight c)
    textColor := barTextColor c
    activeColor := if shifting then JSVal.str (barTextColor c) else primary
    inactiveColor :=
      if shifting then barTextColor c
      else rgbString (colorWithAlpha tc (1 / 2))
    touchColor := rgbString (colorWithAlpha tc (12 / 100)) }

/-- Shallow embedding of the color derivation in `render` (lines 419-461),
with JavaScript exceptions made explicit: the two `color(...)` calls sit in
`Except` (a thrown error propagates), every other step is a total value
computation collected by `mkBarColors`. -/
def deriveBarColors (shifting : Bool) (dark primary barStyleBackgroundColor : JSVal)
    (routeColors : List JSVal) : Except String DerivedBarColors :=
  (jsColor (approxBackground shifting dark primary barStyleBackgroundColor)).bind
    fun c =>
      (jsColor (JSVal.str (barTextColor c))).map
        fun tc =>
          mkBarColors shifting primary routeColors
            (approxBackground shifting dark primary barStyleBackgroundColor) c tc

/-- A theme/style color field that is either missing (`undefined`, the
malformed-theme case) or a well-formed color string. -/
def okColorField : JSVal → Bool
  | .undef => true
  | .str s => (parseHexColor s).isSome
  | .jsBool _ => false

end Paper

namespace Paper

/-- C1 counterexample: the claim's clause "if the indices are equal and
`currentIndex = numberOfItems - 1` the result is `-MIN_SHIFT_AMOUNT`" fails at
`(activeIndex, currentIndex, numberOfItems) = (0, 0, 1)`: there
`currentIndex = 0 = numberOfItems - 1`, and the code's `currentIndex === 0`
branch fires first, returning `MIN_SHIFT_AMOUNT = 10`, not `-10`. -/
theorem calculateShift_last_tab_clause_fails_at_0_0_1 :
    (0 : Int) = 0 ∧ (0 : Int) = 1 - 1 ∧
      calculateShift 0 0 1 = MIN_SHIFT_AMOUNT ∧
      ¬ calculateShift 0 0 1 = -MIN_SHIFT_AMOUNT := by
  refine ⟨rfl, by decide, by decide, by decide⟩

/-- C1 (amended): `_calculateShift` is a three-way comparison on
`activeIndex` vs `currentIndex`: strictly below gives `2 * MIN_SHIFT_AMOUNT`,
strictly above gives `-2 * MIN_SHIFT_AMOUNT`; on equality, `currentIndex = 0`
gives `MIN_SHIFT_AMOUNT`, a *nonzero* `currentIndex` equal to
`numberOfItems - 1` gives `-MIN_SHIFT_AMOUNT`, and a `currentIndex` strictly
in the middle gives `0`. -/
theorem calculateShift_three_way (activeIndex currentIndex numberOfItems : Int) :
    (activeIndex < currentIndex →
      calculateShift activeIndex currentIndex numberOfItems = 2 * MIN_SHIFT_AMOUNT) ∧
    (activeIndex > currentIndex →
      calculateShift activeIndex currentIndex numberOfItems = -2 * MIN_SHIFT_AMOUNT) ∧
    (activeIndex = currentIndex → currentIndex = 0 →
      calculateShift activeIndex currentIndex numberOfItems = MIN_SHIFT_AMOUNT) ∧
    (activeIndex = currentIndex → currentIndex ≠ 0 →
      currentIndex = numberOfItems - 1 →
      calculateShift activeIndex currentIndex numberOfItems = -MIN_SHIFT_AMOUNT) ∧
    (activeIndex = currentIndex → 0 < currentIndex →
      currentIndex < numberOfItems - 1 →
      calculateShift activeIndex currentIndex numberOfItems = 0) := by
  unfold calculateShift
  refine ⟨?_, ?_, ?_, ?_, ?_⟩ <;> intros <;> split_ifs <;> omega

/-- Witness for C1: each branch of `calculateShift_three_way` exercised at a
concrete triple. -/
theorem calculateShift_three_way_witness :
    calculateShift 0 1 5 = 2 * MIN_SHIFT_AMOUNT ∧
    calculateShift 2 1 5 = -2 * MIN_SHIFT_AMOUNT ∧
    calculateShift 0 0 5 = MIN_SHIFT_AMOUNT ∧
    calculateShift 4 4 5 = -MIN_SHIFT_AMOUNT ∧
    calculateShift 2 2 5 = 0 :=
  ⟨(calculateShift_three_way 0 1 5).1 (by decide),
   (calculateShift_three_way 2 1 5).2.1 (by decide),
   (calculateShift_three_way 0 0 5).2.2.1 (by decide) (by decide),
   (calculateShift_three_way 4 4 5).2.2.2.1 (by decide) (by decide) (by decide),
   (calculateShift_three_way 2 2 5).2.2.2.2 (by decide) (by decide) (by decide)⟩

/-- C2: for every triple of integer arguments the shift lies in the fixed set
`{-2 * MIN_SHIFT_AMOUNT, -MIN_SHIFT_AMOUNT, 0, MIN_SHIFT_AMOUNT, 2 * MIN_SHIFT_AMOUNT}`,
i.e. `{-20, -10, 0, 10, 20}`. -/
theorem calculateShift_mem_shift_set (activeIndex currentIndex numberOfItems : Int) :
    calculateShift activeIndex currentIndex numberOfItems ∈
      ([-2 * MIN_SHIFT_AMOUNT, -MIN_SHIFT_AMOUNT, 0,
        MIN_SHIFT_AMOUNT, 2 * MIN_SHIFT_AMOUNT] : List Int) ∧
    ([-2 * MIN_SHIFT_AMOUNT, -MIN_SHIFT_AMOUNT, 0,
        MIN_SHIFT_AMOUNT, 2 * MIN_SHIFT_AMOUNT] : List Int) =
      [-20, -10, 0, 10, 20] := by
  constructor
  · unfold calculateShift
    split_ifs <;> simp
  · decide

/-- C3: in the non-expanded state `getAccordionColors` returns the record
fixed by the theme version: for a version-3 theme,
`titleColor = titleTextColor = colors.onSurface`,
`descriptionColor = colors.onSurfaceVariant`, and
`rippleColor = colors.onSurface` at alpha 0.12; for a version-2 theme,
`titleColor = titleTextColor = colors.text` at alpha 0.87,
`descriptionColor = colors.text` at alpha 0.54, and `rippleColor` is that
0.87-alpha text color at alpha 0.12. -/
theorem getAccordionColors_collapsed (t : Theme) :
    (t.isV3 = true →
      getAccordionColors t false =
        { titleColor := t.colors.onSurface
          descriptionColor := t.colors.onSurfaceVariant
          titleTextColor := t.colors.onSurface
          rippleColor := setAlpha t.colors.onSurface (12 / 100) }) ∧
    (t.isV3 = false →
      getAccordionColors t false =
        { titleColor := setAlpha t.colors.text (87 / 100)
          descriptionColor := setAlpha t.colors.text (54 / 100)
          titleTextColor := setAlpha t.colors.text (87 / 100)
          rippleColor := setAlpha (setAlpha t.colors.text (87 / 100)) (12 / 100) }) := by
  constructor <;> intro h <;> simp [getAccordionColors, h]

/-- Sample version-3 theme for evaluating the accordion color theorems. -/
def sampleThemeV3 : Theme :=
  { isV3 := true
    colors :=
      { onSurface := { rgb := "rgb(28, 27, 31)", alpha := 1 }
        onSurfaceVariant := { rgb := "rgb(73, 69, 79)", alpha := 1 }
        text := { rgb := "rgb(0, 0, 0)", alpha := 1 }
        primary := { rgb := "rgb(103, 80, 164)", alpha := 1 } } }

/-- Sample version-2 theme for evaluating the accordion color theorems. -/
def sampleThemeV2 : Theme :=
  { isV3 := false
    colors :=
      { onSurface := { rgb := "rgb(0, 0, 0)", alpha := 1 }
        onSurfaceVariant := { rgb := "rgb(0, 0, 0)", alpha := 1 }
        text := { rgb := "rgb(0, 0, 0)", alpha := 1 }
        primary := { rgb := "rgb(98, 0, 238)", alpha := 1 } } }

/-- Witness for C3: both branches of `getAccordionColors_collapsed`
evaluated on concrete themes. -/
theorem getAccordionColors_collapsed_witness :
    getAccordionColors sampleThemeV3 false =
      { titleColor := sampleThemeV3.colors.onSurface
        descriptionColor := sampleThemeV3.colors.onSurfaceVariant
        titleTextColor := sampleThemeV3.colors.onSurface
        rippleColor := setAlpha sampleThemeV3.colors.onSurface (12 / 100) } ∧
    getAccordionColors sampleThemeV2 false =
      { titleColor := setAlpha sampleThemeV2.colors.text (87 / 100)
        descriptionColor := setAlpha sampleThemeV2.colors.text (54 / 100)
        titleTextColor := setAlpha sampleThemeV2.colors.text (87 / 100)
        rippleColor :=
          setAlpha (setAlpha sampleThemeV2.colors.text (87 / 100)) (12 / 100) } :=
  ⟨(getAccordionColors_collapsed sampleThemeV3).1 rfl,
   (getAccordionColors_collapsed sampleThemeV2).2 rfl⟩

/-- C4: in the expanded state, for every theme the title-text color is
`colors.primary` and the ripple color is `colors.primary` at alpha 0.12,
overriding the theme-version formulas of the collapsed state. -/
theorem getAccordionColors_expanded (t : Theme) :
    (getAccordionColors t true).titleTextColor = t.colors.primary ∧
    (getAccordionColors t true).rippleColor = setAlpha t.colors.primary (12 / 100) := by
  constructor <;> rfl

/-- C5: the shift calculation and the accordion color derivation are
deterministic functions of their arguments: equal arguments give equal
results.  (Statelessness holds by construction of the embedding: the source
bodies read only the module constant `MIN_SHIFT_AMOUNT` and their parameters,
so they translate to closed Lean functions with no ambient state.) -/
theorem calculateShift_getAccordionColors_pure
    (a c n a' c' n' : Int) (t t' : Theme) (e e' : Bool) :
    (a = a' → c = c' → n = n' →
      calculateShift a c n = calculateShift a' c' n') ∧
    (t = t' → e = e' →
      getAccordionColors t e = getAccordionColors t' e') := by
  constructor
  · intro h1 h2 h3; rw [h1, h2, h3]
  · intro h1 h2; rw [h1, h2]

/-- Witness for C5: determinism applied at concrete arguments. -/
theorem calculateShift_getAccordionColors_pure_witness :
    calculateShift 1 2 4 = calculateShift 1 2 4 ∧
    getAccordionColors sampleThemeV3 true = getAccordionColors sampleThemeV3 true :=
  ⟨(calculateShift_getAccordionColors_pure 1 2 4 1 2 4
      sampleThemeV3 sampleThemeV3 true true).1 rfl rfl rfl,
   (calculateShift_getAccordionColors_pure 1 2 4 1 2 4
      sampleThemeV3 sampleThemeV3 true true).2 rfl rfl⟩

/-- C6: in shifting mode the inactive-state label wrapper is never emitted
(for any animated value), the single label's opacity is the tab's active
value, which is 0 for every inactive tab and 1 for the active tab, and the
label scale is 1 for the active tab while an inactive tab's label scale
interpolates down to 0.5. -/
theorem shifting_hides_inactive_labels (activeIndex i : Nat) (f : ℚ) :
    (renderTabLabel true f).renderInactiveLabel = false ∧
    (renderTabLabel true (tabActiveValue activeIndex i)).activeLabelOpacity =
      tabActiveValue activeIndex i ∧
    (i ≠ activeIndex →
      (renderTabLabel true (tabActiveValue activeIndex i)).activeLabelOpacity = 0 ∧
      (renderTabLabel true (tabActiveValue activeIndex i)).labelScale = 1 / 2) ∧
    (renderTabLabel true (tabActiveValue activeIndex activeIndex)).activeLabelOpacity = 1 ∧
    (renderTabLabel true (tabActiveValue activeIndex activeIndex)).labelScale = 1 := by
  refine ⟨rfl, rfl, ?_, ?_, ?_⟩
  · intro h
    constructor
    · simp [renderTabLabel, tabActiveValue, h]
    · simp [renderTabLabel, tabActiveValue, h, interpolate01]
  · simp [renderTabLabel, tabActiveValue]
  · simp [renderTabLabel, tabActiveValue, interpolate01]

/-- Witness for C6: the shifting-mode label render evaluated with tab 1 of 3
active, looking at inactive tab 0. -/
theorem shifting_hides_inactive_labels_witness :
    (renderTabLabel true (tabActiveValue 1 0)).renderInactiveLabel = false ∧
    (renderTabLabel true (tabActiveValue 1 0)).activeLabelOpacity = 0 ∧
    (renderTabLabel true (tabActiveValue 1 0)).labelScale = 1 / 2 ∧
    (renderTabLabel true (tabActiveValue 1 1)).activeLabelOpacity = 1 ∧
    (renderTabLabel true (tabActiveValue 1 1)).labelScale = 1 :=
  ⟨(shifting_hides_inactive_labels 1 0 (tabActiveValue 1 0)).1,
   ((shifting_hides_inactive_labels 1 0 (tabActiveValue 1 0)).2.2.1 (by decide)).1,
   ((shifting_hides_inactive_labels 1 0 (tabActiveValue 1 0)).2.2.1 (by decide)).2,
   (shifting_hides_inactive_labels 1 0 (tabActiveValue 1 0)).2.2.2.1,
   (shifting_hides_inactive_labels 1 0 (tabActiveValue 1 0)).2.2.2.2⟩

/-- Concrete route list for evaluating the tab-press and jump theorems. -/
def sampleRoutes : List Route :=
  [{ key := "music", title := some "Music", icon := some "queue-music", color := none },
   { key := "albums", title := some "Albums", icon := some "album", color := none },
   { key := "recents", title := some "Recents", icon := some "history", color := none }]

/-- C9: `_handleTabPress i` emits `onIndexChange(i)` iff `i` differs from the
current `navigationState.index`; when the `onTabPress` prop is present it is
invoked on every press with the route at index `i` and
`focused = (navigationState.index === i)`; pressing the active tab invokes
`onTabPress` with `focused: true` and never invokes `onIndexChange`. -/
theorem handleTabPress_spec (navIndex : Nat) (routes : List Route)
    (hasOnTabPress : Bool) (i : Nat) :
    ((handleTabPress navIndex routes hasOnTabPress i).indexChangeCalls = [i] ↔
      i ≠ navIndex) ∧
    ((handleTabPress navIndex routes hasOnTabPress i).indexChangeCalls = [] ↔
      i = navIndex) ∧
    (hasOnTabPress = true →
      (handleTabPress navIndex routes hasOnTabPress i).tabPressCalls =
        [(routes.get? i, decide (navIndex = i))]) ∧
    (hasOnTabPress = false →
      (handleTabPress navIndex routes hasOnTabPress i).tabPressCalls = []) ∧
    (handleTabPress navIndex routes true navIndex).tabPressCalls =
      [(routes.get? navIndex, true)] ∧
    (handleTabPress navIndex routes hasOnTabPress navIndex).indexChangeCalls = [] := by
  refine ⟨?_, ?_, ?_, ?_, ?_, ?_⟩
  · by_cases h : i = navIndex <;> simp [handleTabPress, h]
  · by_cases h : i = navIndex <;> simp [handleTabPress, h]
  · intro h; simp [handleTabPress, h]
  · intro h; simp [handleTabPress, h]
  · simp [handleTabPress]
  · simp [handleTabPress]

/-- Witness for C9: pressing inactive tab 1 and active tab 0 with
`navigationState.index = 0` on three concrete routes. -/
theorem handleTabPress_spec_witness :
    (handleTabPress 0 sampleRoutes true 1).indexChangeCalls = [1] ∧
    (handleTabPress 0 sampleRoutes true 1).tabPressCalls =
      [(sampleRoutes.get? 1, false)] ∧
    (handleTabPress 0 sampleRoutes true 0).tabPressCalls =
      [(sampleRoutes.get? 0, true)] ∧
    (handleTabPress 0 sampleRoutes true 0).indexChangeCalls = [] :=
  ⟨(handleTabPress_spec 0 sampleRoutes true 1).1.mpr (by decide),
   by
    have h := (handleTabPress_spec 0 sampleRoutes true 1).2.2.1 rfl
    simpa using h,
   (handleTabPress_spec 0 sampleRoutes true 0).2.2.2.2.1,
   (handleTabPress_spec 0 sampleRoutes true 0).2.2.2.2.2⟩

/-- Function `jsFindIndex` returns `-1` when no element satisfies the predicate. -/
theorem jsFindIndex_eq_neg_one (p : Route → Bool) (l : List Route)
    (h : ∀ r ∈ l, p r = false) : jsFindIndex p l = -1 := by
  induction l with
  | nil => rfl
  | cons r rs ih =>
    have hr : p r = false := h r (by simp)
    have hrs : jsFindIndex p rs = -1 := ih (fun x hx => h x (by simp [hx]))
    simp [jsFindIndex, hr, hrs]

/-- Function `jsFindIndex` returns the index of the first element satisfying the
predicate. -/
theorem jsFindIndex_eq_first (p : Route → Bool) (l : List Route) (i : Nat)
    (hi : i < l.length) (hp : p (l.get ⟨i, hi⟩) = true)
    (hfirst : ∀ j, j < i → ∀ hj : j < l.length, p (l.get ⟨j, hj⟩) = false) :
    jsFindIndex p l = i := by
  induction l generalizing i with
  | nil => exact absurd hi (by simp)
  | cons r rs ih =>
    cases i with
    | zero =>
      simp only [List.get] at hp
      simp [jsFindIndex, hp]
    | succ j =>
      have hr : p r = false := hfirst 0 (Nat.succ_pos j) (by simp)
      have hj : j < rs.length := Nat.lt_of_succ_lt_succ hi
      have hp' : p (rs.get ⟨j, hj⟩) = true := hp
      have hfirst' : ∀ k, k < j → ∀ hk : k < rs.length, p (rs.get ⟨k, hk⟩) = false := by
        intro k hk hk2
        exact hfirst (k + 1) (Nat.succ_lt_succ hk) (Nat.succ_lt_succ hk2)
      have hrs : jsFindIndex p rs = j := ih j hj hp' hfirst'
      simp [jsFindIndex, hr, hrs]

/-- C10: `_jumpTo(key)` passes `-1` to `onIndexChange` when no route has the
given key (the `findIndex` miss value), and passes the index of the first
route bearing the key when one is present. -/
theorem jumpTo_spec (routes : List Route) (key : String) :
    ((∀ r ∈ routes, r.key ≠ key) → jumpTo routes key = -1) ∧
    (∀ i : Nat, ∀ hi : i < routes.length,
      (routes.get ⟨i, hi⟩).key = key →
      (∀ j, j < i → ∀ hj : j < routes.length, (routes.get ⟨j, hj⟩).key ≠ key) →
      jumpTo routes key = i) := by
  constructor
  · intro h
    exact jsFindIndex_eq_neg_one _ routes (by
      intro r hr
      simpa using h r hr)
  · intro i hi hp hfirst
    refine jsFindIndex_eq_first _ routes i hi (by simpa using hp) ?_
    intro j hj hj2
    simpa using hfirst j hj hj2

/-- Witness for C10: a missing key yields `-1`, and the key of the second
route yields index `1`, on three concrete routes. -/
theorem jumpTo_spec_witness :
    jumpTo sampleRoutes "missing" = -1 ∧ jumpTo sampleRoutes "albums" = 1 :=
  ⟨(jumpTo_spec sampleRoutes "missing").1 (by decide),
   (jumpTo_spec sampleRoutes "albums").2 1 (by decide) (by decide) (by
    intro j hj hj2
    have hz : j = 0 := by omega
    subst hz
    show ("music" : String) ≠ "albums"
    decide)⟩

/-- A color field that is missing or a well-formed color string never makes
the `color` constructor throw. -/
theorem jsColor_ok_of_okColorField (v : JSVal) (h : okColorField v = true) :
    ∃ c, jsColor v = Except.ok c := by
  cases v with
  | undef => exact ⟨{ r := 0, g := 0, b := 0, a := 1 }, rfl⟩
  | jsBool b => simp [okColorField] at h
  | str s =>
    simp only [okColorField] at h
    obtain ⟨c, hc⟩ := Option.isSome_iff_exists.mp h
    exact ⟨c, by simp [jsColor, hc]⟩

/-- The destructuring default for the approximate background color preserves
well-formedness of the color fields. -/
theorem approxBackground_ok (shifting : Bool) (dark primary barBg : JSVal)
    (hp : okColorField primary = true) (hb : okColorField barBg = true) :
    okColorField (approxBackground shifting dark primary barBg) = true := by
  unfold approxBackground
  cases hbb : (barBg == JSVal.undef) with
  | false => simpa [hbb] using hb
  | true =>
    cases shifting with
    | true => simpa [hbb] using hp
    | false =>
      cases hd : jsTruthy dark with
      | false => simp [hbb, hd]; rfl
      | true => simp [hbb, hd]; rfl

/-- Binding on `Except` preserves success when both stages succeed. -/
theorem except_isOk_bind {ε α β : Type} (e : Except ε α) (f : α → Except ε β)
    (h1 : ∃ a, e = Except.ok a) (h2 : ∀ a, (f a).isOk = true) :
    (e.bind f).isOk = true := by
  obtain ⟨a, ha⟩ := h1
  subst ha
  exact h2 a

/-- Mapping over `Except` preserves success. -/
theorem except_isOk_map {ε α β : Type} (f : α → β) (e : Except ε α)
    (h : ∃ a, e = Except.ok a) : (Except.map f e).isOk = true := by
  obtain ⟨a, ha⟩ := h
  subst ha
  rfl

/-- Whichever of black and white the derivation picks as text color, the
`color(textColor)` call succeeds. -/
theorem jsColor_barTextColor_ok (c : ColorObj) :
    ∃ t, jsColor (JSVal.str (barTextColor c)) = Except.ok t := by
  unfold barTextColor
  cases hcl : colorLight c <;> exact ⟨_, rfl⟩

/-- C7: a malformed theme never crashes the bar color derivation: for every
shifting flag, `theme.dark` value, route color list, and
`colors.primary` / `barStyle.backgroundColor` fields that are each missing
(`undefined`) or a well-formed color string, `deriveBarColors` returns a
result (possibly carrying `undefined`-valued styling) rather than raising an
error. -/
theorem deriveBarColors_no_crash (shifting : Bool) (dark primary barBg : JSVal)
    (routeColors : List JSVal)
    (hp : okColorField primary = true) (hb : okColorField barBg = true) :
    (deriveBarColors shifting dark primary barBg routeColors).isOk = true := by
  rw [deriveBarColors]
  refine except_isOk_bind _ _
    (jsColor_ok_of_okColorField _ (approxBackground_ok shifting dark primary barBg hp hb))
    ?_
  intro c
  exact except_isOk_map _ _ (jsColor_barTextColor_ok c)

/-- Witness for C7: the fully malformed theme (every color field missing,
`theme.dark` undefined) in shifting mode derives successfully, and the
derived approximate background color is itself `undefined`-valued styling. -/
theorem deriveBarColors_no_crash_witness :
    (deriveBarColors true JSVal.undef JSVal.undef JSVal.undef [JSVal.undef]).isOk = true ∧
    ∃ out, deriveBarColors true JSVal.undef JSVal.undef JSVal.undef [JSVal.undef] =
      Except.ok out ∧ out.approxBackgroundColor = JSVal.undef :=
  ⟨deriveBarColors_no_crash true JSVal.undef JSVal.undef JSVal.undef [JSVal.undef] rfl rfl,
   ⟨mkBarColors true JSVal.undef [JSVal.undef] JSVal.undef
      { r := 0, g := 0, b := 0, a := 1 } { r := 255, g := 255, b := 255, a := 1 },
    rfl, rfl⟩⟩

/-- C8: with no boolean `shifting` prop, shifting mode is on iff the number of
routes exceeds 3; a boolean prop is used verbatim, whatever the route count. -/
theorem resolveShifting_spec (numRoutes : Nat) (b : Bool) :
    (resolveShifting none numRoutes = true ↔ numRoutes > 3) ∧
    resolveShifting (some b) numRoutes = b := by
  constructor
  · simp [resolveShifting]
  · rfl

/-- Witness for C8: four routes turn shifting on by default, and an explicit
`shifting: false` prop overrides that. -/
theorem resolveShifting_spec_witness :
    resolveShifting none 4 = true ∧ resolveShifting (some false) 4 = false :=
  ⟨(resolveShifting_spec 4 false).1.mpr (by decide),
   (resolveShifting_spec 4 false).2⟩

end Paper
